import Mathlib

/-!
Shallow embedding of `src/client.rs` of the reqwless embedded HTTP client.

The client orchestrates DNS resolution, TCP establishment and an optional TLS
handshake to produce an `HttpConnection` in one of three forms (Plain,
PlainBuffered, Tls), and offers single-use request handles and multi-request
resource scopes over that connection.  External collaborators (DNS, TCP, the
TLS session, the RNG, URL parsing) are modelled at their interface boundary as
injected capabilities; the control flow of `client.rs` itself is translated
directly.  Side effects that the claims talk about (network operations during
`connect`, writes to the transport during `send`) are made observable as
explicit event traces returned alongside the result.
-/

namespace Reqwless

/-- The shared transport error classification `embedded_io::ErrorKind`.  The
client carries the classification without inspecting it, so it is modelled as
a plain numeric code. -/
structure ErrorKind where
  code : Nat
deriving DecidableEq, Repr

/-- `embedded_io::Error::kind` on `ErrorKind` itself is the identity
(`impl Error for ErrorKind` returns `*self`). -/
def ErrorKind.kind (k : ErrorKind) : ErrorKind := k

/-- Modelled from the spec: the URL parse error type of the external `nourl`
parser; `client.rs` constructs only the `UnsupportedScheme` variant (line 119). -/
inductive NourlError where
  | UnsupportedScheme
deriving DecidableEq, Repr

/-- Modelled from the spec: the crate error type `crate::Error` (declared in
`lib.rs`, which is not under `src/`), restricted to the variants produced by
the code in `client.rs`: transport errors normalized to `ErrorKind`, DNS
failure, TLS handshake failure, URL errors and handle reuse (spec §7 taxonomy). -/
inductive Error where
  | Network (kind : ErrorKind)
  | Dns
  | Tls
  | InvalidUrl (e : NourlError)
  | AlreadySent
deriving DecidableEq, Repr

/-- URL scheme as decomposed by the external `nourl` parser. -/
inductive UrlScheme where
  | HTTP
  | HTTPS
deriving DecidableEq, Repr

/-- Modelled from the spec: the decomposed URL `{scheme, host, port, path}`
consumed from the external parser (spec §6). -/
structure Url where
  scheme : UrlScheme
  host : String
  port : Option Nat
  path : String
deriving DecidableEq, Repr

/-- Modelled from the spec: `nourl::Url::port_or_default`, the explicit port or
the scheme default (80 for http, 443 for https). -/
def Url.port_or_default (u : Url) : Nat :=
  u.port.getD (match u.scheme with | .HTTP => 80 | .HTTPS => 443)

/-- Modelled from the spec: enumerated HTTP verb (`request.rs` is not under
`src/`; spec §3). -/
inductive Method where
  | GET
  | POST
  | PUT
  | DELETE
  | HEAD
deriving DecidableEq, Repr

/-- Modelled from the spec: enumerated MIME content type (`headers.rs` is not
under `src/`; spec §3). -/
inductive ContentType where
  | TextPlain
  | ApplicationJson
  | ApplicationOctetStream
deriving DecidableEq, Repr

/-- Modelled from the spec: the request value of `request.rs` (not under
`src/`): method, path, optional base path (prepended when sent through a
resource scope), optional host, header sequence, optional content type,
optional basic-auth credentials and optional body payload (spec §3). -/
structure Request (B : Type) where
  method : Method
  path : String
  base_path : Option String := none
  host : Option String := none
  headers : List (String × String) := []
  content_type : Option ContentType := none
  basic_auth : Option (String × String) := none
  body : Option B := none
deriving DecidableEq, Repr

/-- Modelled from the spec: `DefaultRequestBuilder` of `request.rs` (not under
`src/`), a declarative builder holding the request under construction;
`build` yields the finished request (spec §3, §4.2). -/
abbrev DefaultRequestBuilder (B : Type) := Request B

/-- Modelled from the spec: `Request::new(method, path)` starts a builder with
the given method and path and no other fields set. -/
def Request.new (method : Method) (path : String) : DefaultRequestBuilder Unit :=
  { method := method, path := path }

/-- Modelled from the spec: builder `headers` sets the user header slice. -/
def DefaultRequestBuilder.headers {B : Type} (rb : DefaultRequestBuilder B)
    (hs : List (String × String)) : DefaultRequestBuilder B :=
  { method := Request.method rb, path := Request.path rb,
    base_path := Request.base_path rb, host := Request.host rb,
    headers := hs, content_type := Request.content_type rb,
    basic_auth := Request.basic_auth rb, body := Request.body rb }

/-- Modelled from the spec: builder `path` sets the request path. -/
def DefaultRequestBuilder.path {B : Type} (rb : DefaultRequestBuilder B)
    (p : String) : DefaultRequestBuilder B :=
  { method := Request.method rb, path := p,
    base_path := Request.base_path rb, host := Request.host rb,
    headers := Request.headers rb, content_type := Request.content_type rb,
    basic_auth := Request.basic_auth rb, body := Request.body rb }

/-- Modelled from the spec: builder `body` attaches a body payload, changing the
body type parameter. -/
def DefaultRequestBuilder.body {B T : Type} (rb : DefaultRequestBuilder B)
    (b : T) : DefaultRequestBuilder T :=
  { method := Request.method rb, path := Request.path rb,
    base_path := Request.base_path rb, host := Request.host rb,
    headers := Request.headers rb, content_type := Request.content_type rb,
    basic_auth := Request.basic_auth rb, body := some b }

/-- Modelled from the spec: builder `host` sets the Host header value. -/
def DefaultRequestBuilder.host {B : Type} (rb : DefaultRequestBuilder B)
    (h : String) : DefaultRequestBuilder B :=
  { method := Request.method rb, path := Request.path rb,
    base_path := Request.base_path rb, host := some h,
    headers := Request.headers rb, content_type := Request.content_type rb,
    basic_auth := Request.basic_auth rb, body := Request.body rb }

/-- Modelled from the spec: builder `content_type` sets the content type. -/
def DefaultRequestBuilder.content_type {B : Type} (rb : DefaultRequestBuilder B)
    (c : ContentType) : DefaultRequestBuilder B :=
  { method := Request.method rb, path := Request.path rb,
    base_path := Request.base_path rb, host := Request.host rb,
    headers := Request.headers rb, content_type := some c,
    basic_auth := Request.basic_auth rb, body := Request.body rb }

/-- Modelled from the spec: builder `basic_auth` sets basic-auth credentials. -/
def DefaultRequestBuilder.basic_auth {B : Type} (rb : DefaultRequestBuilder B)
    (u p : String) : DefaultRequestBuilder B :=
  { method := Request.method rb, path := Request.path rb,
    base_path := Request.base_path rb, host := Request.host rb,
    headers := Request.headers rb, content_type := Request.content_type rb,
    basic_auth := some (u, p), body := Request.body rb }

/-- Modelled from the spec: `build` finishes the builder, yielding the request. -/
def DefaultRequestBuilder.build {B : Type} (rb : DefaultRequestBuilder B) :
    Request B := rb

/-- Supported verification modes (`TlsVerify`, client.rs lines 38-43); byte
slices are modelled as byte lists. -/
inductive TlsVerify where
  | None
  | Psk (identity : List Nat) (psk : List Nat)
deriving DecidableEq, Repr

/-- TLS configuration (`TlsConfig`, client.rs lines 29-34): an RNG seed, two
borrowed scratch buffers (modelled by numeric buffer identities) and a
verification mode. -/
structure TlsConfig where
  seed : Nat
  read_buffer : Nat
  write_buffer : Nat
  verify : TlsVerify
deriving DecidableEq, Repr

/-- `TlsConfig::new` (client.rs lines 47-54). -/
def TlsConfig.new (seed : Nat) (read_buffer : Nat) (write_buffer : Nat)
    (verify : TlsVerify) : TlsConfig :=
  { seed := seed, write_buffer := write_buffer, read_buffer := read_buffer,
    verify := verify }

/-- The external `embedded_tls::TlsConnection` session, modelled at its
interface boundary (spec §6): it owns the raw transport and the two scratch
buffers it was constructed with
(`TlsConnection::new(conn, read_buffer, write_buffer)`, client.rs line 111). -/
structure TlsSession (C : Type) where
  transport : C
  read_buffer : Nat
  write_buffer : Nat
deriving DecidableEq, Repr

/-- `HttpConnection` (client.rs lines 166-177): exactly one underlying
transport, in one of three mutually exclusive forms.  `PlainBuffered` records
the wrapped transport (behind `ConnErrorAdapter`) and the transmit buffer
handed to the `BufferedWrite` wrapper. -/
inductive HttpConnection (C : Type) where
  | Plain (conn : C)
  | PlainBuffered (conn : C) (tx_buf : Nat)
  | Tls (session : TlsSession C)
deriving DecidableEq, Repr

/-- The form tag of a connection (spec §3, Connection). -/
inductive ConnForm where
  | Plain
  | PlainBuffered
  | Tls
deriving DecidableEq, Repr

/-- Which of the three forms a connection is in. -/
def HttpConnection.form {C : Type} : HttpConnection C → ConnForm
  | .Plain _ => .Plain
  | .PlainBuffered _ _ => .PlainBuffered
  | .Tls _ => .Tls

/-- `HttpConnection::into_buffered` (client.rs lines 187-198): wrap a Plain
connection's transport in a write buffer; pass the other forms through. -/
def HttpConnection.into_buffered {C : Type} (conn : HttpConnection C)
    (tx_buf : Nat) : HttpConnection C :=
  match conn with
  | .Plain c => .PlainBuffered c tx_buf
  | .PlainBuffered c b => .PlainBuffered c b
  | .Tls tls => .Tls tls

/-- `HttpClient` (client.rs lines 16-25).  The DNS and TCP capabilities are
injected per call in this model (see `ConnectEnv`); the client state proper is
the optional TLS configuration (the field is absent altogether when the
`embedded-tls` feature is off, which the model renders as it being ignored). -/
structure HttpClient where
  tls : Option TlsConfig
deriving DecidableEq, Repr

/-- `HttpClient::new` (client.rs lines 63-70): no TLS configuration. -/
def HttpClient.new : HttpClient := { tls := none }

/-- `HttpClient::new_with_tls` (client.rs lines 74-80). -/
def HttpClient.new_with_tls (tls : TlsConfig) : HttpClient := { tls := some tls }

/-- Network-facing operations performed during `connect`, in program order.
The `tlsHandshake` event records the server name and the RNG state handed to
the handshake (`TlsContext::new(&config, &mut rng)`, client.rs line 112). -/
inductive NetOp (R : Type) where
  | dnsLookup (host : String)
  | tcpConnect (addr : Nat) (port : Nat)
  | tlsHandshake (server_name : String) (rng : R)
deriving DecidableEq, Repr

/-- The injected capabilities consumed by `connect` (spec §6): name resolution
(`Dns::get_host_by_name`, addresses modelled as numbers), transport
establishment (`TcpConnect::connect`, raw transport type `C`) and the external
TLS handshake outcome (`TlsConnection::open`), which observes the RNG state of
type `R` it is given. -/
structure ConnectEnv (C R : Type) where
  get_host_by_name : String → Option Nat
  tcpConnect : Nat → Nat → Except ErrorKind C
  tlsOpen : String → TlsVerify → R → Bool

/-- `HttpClient::connect` (client.rs lines 82-132).  `tlsFeature` reflects the
`embedded-tls` compile-time feature; `seed_from_u64` and `next_u64` model the
external `ChaCha8Rng` (`seed_from_u64` / `next_u64`) at its interface
boundary.  Returns the result, the updated client state and the ordered trace
of network operations attempted.  The order in the source is: DNS lookup,
then TCP connect, and only then the scheme dispatch that may perform a TLS
handshake or reject the scheme. -/
def HttpClient.connect {C R : Type} (tlsFeature : Bool) (env : ConnectEnv C R)
    (seed_from_u64 : Nat → R) (next_u64 : R → Nat × R)
    (cl : HttpClient) (url : Url) :
    Except Error (HttpConnection C) × HttpClient × List (NetOp R) :=
  match env.get_host_by_name url.host with
  | none => (.error .Dns, cl, [.dnsLookup url.host])
  | some remote =>
    match env.tcpConnect remote url.port_or_default with
    | .error k =>
      (.error (.Network k), cl,
        [.dnsLookup url.host, .tcpConnect remote url.port_or_default])
    | .ok conn =>
      if url.scheme = UrlScheme.HTTPS then
        if tlsFeature then
          match cl.tls with
          | some tls =>
            let rng := seed_from_u64 tls.seed
            let seed2 := (next_u64 rng).1
            let rng2 := (next_u64 rng).2
            let cl2 : HttpClient := { cl with tls := some { tls with seed := seed2 } }
            let tr := [NetOp.dnsLookup url.host,
              NetOp.tcpConnect remote url.port_or_default,
              NetOp.tlsHandshake url.host rng2]
            let session : TlsSession C :=
              { transport := conn, read_buffer := tls.read_buffer,
                write_buffer := tls.write_buffer }
            if env.tlsOpen url.host tls.verify rng2 then
              (.ok (.Tls session), cl2, tr)
            else
              (.error .Tls, cl2, tr)
          | none =>
            (.ok (.Plain conn), cl,
              [.dnsLookup url.host, .tcpConnect remote url.port_or_default])
        else
          (.error (.InvalidUrl .UnsupportedScheme), cl,
            [.dnsLookup url.host, .tcpConnect remote url.port_or_default])
      else
        if tlsFeature then
          match cl.tls with
          | some tls =>
            (.ok (.PlainBuffered conn tls.write_buffer), cl,
              [.dnsLookup url.host, .tcpConnect remote url.port_or_default])
          | none =>
            (.ok (.Plain conn), cl,
              [.dnsLookup url.host, .tcpConnect remote url.port_or_default])
        else
          (.ok (.Plain conn), cl,
            [.dnsLookup url.host, .tcpConnect remote url.port_or_default])

/-- Observable wire effects of a send: the fully assembled request being
written (`request.write`), then the response being read (`Response::read`,
which is handed the request method). -/
inductive WireEvent (B : Type) where
  | requestWrite (req : Request B)
  | responseRead (method : Method)
deriving DecidableEq, Repr

/-- Outcomes of the two externally-visible steps of a send: writing the request
to the transport and reading the response.  `response.rs` is not under `src/`
and the response value itself is irrelevant to the claims, so it is modelled
as `Unit`. -/
structure SendEnv where
  writeResult : Except Error Unit
  readResult : Except Error Unit

/-- `HttpRequestHandle` (client.rs lines 272-279): a connection plus the
pending-request slot, which becomes `none` once consumed by `send`. -/
structure HttpRequestHandle (C B : Type) where
  conn : HttpConnection C
  request : Option (DefaultRequestBuilder B)
deriving DecidableEq, Repr

/-- `HttpRequestHandle::into_buffered` (client.rs lines 290-298). -/
def HttpRequestHandle.into_buffered {C B : Type} (h : HttpRequestHandle C B)
    (tx_buf : Nat) : HttpRequestHandle C B :=
  { conn := h.conn.into_buffered tx_buf, request := h.request }

/-- `HttpRequestHandle::send` (client.rs lines 305-316): `take` the pending
request, failing with `AlreadySent` when the slot was already consumed, then
build it, write it and read the response.  Returns the result, the updated
handle and the trace of wire effects on the transport. -/
def HttpRequestHandle.send {C B : Type} (env : SendEnv)
    (h : HttpRequestHandle C B) :
    Except Error Unit × HttpRequestHandle C B × List (WireEvent B) :=
  match h.request with
  | none => (.error .AlreadySent, h, [])
  | some rb =>
    let req := rb.build
    let h2 : HttpRequestHandle C B := { conn := h.conn, request := none }
    match env.writeResult with
    | .error e => (.error e, h2, [.requestWrite req])
    | .ok _ =>
      match env.readResult with
      | .error e => (.error e, h2, [.requestWrite req, .responseRead req.method])
      | .ok _ => (.ok (), h2, [.requestWrite req, .responseRead req.method])

/-- Result of an operation that may abort the task: Rust `Option::unwrap()` on
`None` panics, which is modelled by `panicked`. -/
inductive PanicOr (α : Type) where
  | panicked
  | ok (value : α)
deriving DecidableEq, Repr

/-- `RequestBuilder::headers` for `HttpRequestHandle` (client.rs line 325):
`self.request.unwrap().headers(..)`, aborting when the slot was consumed. -/
def HttpRequestHandle.headers {C B : Type} (h : HttpRequestHandle C B)
    (hs : List (String × String)) : PanicOr (HttpRequestHandle C B) :=
  match h.request with
  | none => .panicked
  | some rb => .ok { conn := h.conn, request := some (rb.headers hs) }

/-- `RequestBuilder::path` for `HttpRequestHandle` (client.rs line 330). -/
def HttpRequestHandle.path {C B : Type} (h : HttpRequestHandle C B)
    (p : String) : PanicOr (HttpRequestHandle C B) :=
  match h.request with
  | none => .panicked
  | some rb => .ok { conn := h.conn, request := some (rb.path p) }

/-- `RequestBuilder::body` for `HttpRequestHandle` (client.rs lines 335-340). -/
def HttpRequestHandle.body {C B T : Type} (h : HttpRequestHandle C B)
    (b : T) : PanicOr (HttpRequestHandle C T) :=
  match h.request with
  | none => .panicked
  | some rb => .ok { conn := h.conn, request := some (rb.body b) }

/-- `RequestBuilder::host` for `HttpRequestHandle` (client.rs line 342). -/
def HttpRequestHandle.host {C B : Type} (h : HttpRequestHandle C B)
    (hst : String) : PanicOr (HttpRequestHandle C B) :=
  match h.request with
  | none => .panicked
  | some rb => .ok { conn := h.conn, request := some (rb.host hst) }

/-- `RequestBuilder::content_type` for `HttpRequestHandle` (client.rs line 347). -/
def HttpRequestHandle.content_type {C B : Type} (h : HttpRequestHandle C B)
    (c : ContentType) : PanicOr (HttpRequestHandle C B) :=
  match h.request with
  | none => .panicked
  | some rb => .ok { conn := h.conn, request := some (rb.content_type c) }

/-- `RequestBuilder::basic_auth` for `HttpRequestHandle` (client.rs line 352). -/
def HttpRequestHandle.basic_auth {C B : Type} (h : HttpRequestHandle C B)
    (u p : String) : PanicOr (HttpRequestHandle C B) :=
  match h.request with
  | none => .panicked
  | some rb => .ok { conn := h.conn, request := some (rb.basic_auth u p) }

/-- `RequestBuilder::build` for `HttpRequestHandle` (client.rs line 357). -/
def HttpRequestHandle.build {C B : Type} (h : HttpRequestHandle C B) :
    PanicOr (Request B) :=
  match h.request with
  | none => .panicked
  | some rb => .ok rb.build

/-- `HttpClient::request` (client.rs lines 135-146).  URL parsing is delegated
to the external parser (spec §6), so the model consumes the decomposed `Url`.
On success the handle's slot holds a builder pre-populated with method, the
URL path and the URL host. -/
def HttpClient.request {C R : Type} (tlsFeature : Bool) (env : ConnectEnv C R)
    (seed_from_u64 : Nat → R) (next_u64 : R → Nat × R)
    (cl : HttpClient) (method : Method) (url : Url) :
    Except Error (HttpRequestHandle C Unit) × HttpClient × List (NetOp R) :=
  match HttpClient.connect tlsFeature env seed_from_u64 next_u64 cl url with
  | (.ok conn, cl2, tr) =>
    (.ok { conn := conn,
           request := some ((Request.new method url.path).host url.host) },
     cl2, tr)
  | (.error e, cl2, tr) => (.error e, cl2, tr)

/-- `HttpResource` (client.rs lines 365-372): a connection scoped to a host and
a base path. -/
structure HttpResource (C : Type) where
  conn : HttpConnection C
  host : String
  base_path : String
deriving DecidableEq, Repr

/-- `HttpClient::resource` (client.rs lines 150-161): same connection setup as
`request`, retaining the URL's path as the scope's base path. -/
def HttpClient.resource {C R : Type} (tlsFeature : Bool) (env : ConnectEnv C R)
    (seed_from_u64 : Nat → R) (next_u64 : R → Nat × R)
    (cl : HttpClient) (url : Url) :
    Except Error (HttpResource C) × HttpClient × List (NetOp R) :=
  match HttpClient.connect tlsFeature env seed_from_u64 next_u64 cl url with
  | (.ok conn, cl2, tr) =>
    (.ok { conn := conn, host := url.host, base_path := url.path }, cl2, tr)
  | (.error e, cl2, tr) => (.error e, cl2, tr)

/-- `HttpResource::into_buffered` (client.rs lines 382-391). -/
def HttpResource.into_buffered {C : Type} (res : HttpResource C)
    (tx_buf : Nat) : HttpResource C :=
  { conn := res.conn.into_buffered tx_buf, host := res.host,
    base_path := res.base_path }

/-- `HttpResourceRequestBuilder` (client.rs lines 465-473): a scoped request
builder carrying the scope's connection, the scope's base path and the request
under construction. -/
structure HttpResourceRequestBuilder (C B : Type) where
  conn : HttpConnection C
  base_path : String
  request : DefaultRequestBuilder B
deriving DecidableEq, Repr

/-- `HttpResource::request` (client.rs lines 393-406): start a scoped request
pre-populated with the method, the relative path and the scope's host. -/
def HttpResource.request {C : Type} (res : HttpResource C) (method : Method)
    (path : String) : HttpResourceRequestBuilder C Unit :=
  { conn := res.conn, base_path := res.base_path,
    request := (Request.new method path).host res.host }

/-- `HttpResource::get` (client.rs lines 409-414). -/
def HttpResource.get {C : Type} (res : HttpResource C) (path : String) :
    HttpResourceRequestBuilder C Unit :=
  res.request Method.GET path

/-- `HttpResource::post` (client.rs lines 417-422). -/
def HttpResource.post {C : Type} (res : HttpResource C) (path : String) :
    HttpResourceRequestBuilder C Unit :=
  res.request Method.POST path

/-- `HttpResource::put` (client.rs lines 425-430). -/
def HttpResource.put {C : Type} (res : HttpResource C) (path : String) :
    HttpResourceRequestBuilder C Unit :=
  res.request Method.PUT path

/-- `HttpResource::delete` (client.rs lines 433-438). -/
def HttpResource.delete {C : Type} (res : HttpResource C) (path : String) :
    HttpResourceRequestBuilder C Unit :=
  res.request Method.DELETE path

/-- `HttpResource::head` (client.rs lines 441-446). -/
def HttpResource.head {C : Type} (res : HttpResource C) (path : String) :
    HttpResourceRequestBuilder C Unit :=
  res.request Method.HEAD path

/-- `HttpResource::send` (client.rs lines 454-462): stamp the scope's base path
into the request, then write it and read the response. -/
def HttpResource.send {C B : Type} (env : SendEnv) (res : HttpResource C)
    (request : Request B) : Except Error Unit × List (WireEvent B) :=
  let request := { request with base_path := some res.base_path }
  match env.writeResult with
  | .error e => (.error e, [.requestWrite request])
  | .ok _ =>
    match env.readResult with
    | .error e => (.error e, [.requestWrite request, .responseRead request.method])
    | .ok _ => (.ok (), [.requestWrite request, .responseRead request.method])

/-- `HttpResourceRequestBuilder::send` (client.rs lines 486-495): build the
request, stamp the scope's base path into it, then write it and read the
response. -/
def HttpResourceRequestBuilder.send {C B : Type} (env : SendEnv)
    (b : HttpResourceRequestBuilder C B) :
    Except Error Unit × List (WireEvent B) :=
  let request := b.request.build
  let request := { request with base_path := some b.base_path }
  match env.writeResult with
  | .error e => (.error e, [.requestWrite request])
  | .ok _ =>
    match env.readResult with
    | .error e => (.error e, [.requestWrite request, .responseRead request.method])
    | .ok _ => (.ok (), [.requestWrite request, .responseRead request.method])

/-- `RequestBuilder::headers` for `HttpResourceRequestBuilder` (client.rs
line 505): delegates to the inner builder, leaving the base path untouched. -/
def HttpResourceRequestBuilder.headers {C B : Type}
    (b : HttpResourceRequestBuilder C B) (hs : List (String × String)) :
    HttpResourceRequestBuilder C B :=
  { b with request := b.request.headers hs }

/-- `RequestBuilder::path` for `HttpResourceRequestBuilder` (client.rs line 510). -/
def HttpResourceRequestBuilder.path {C B : Type}
    (b : HttpResourceRequestBuilder C B) (p : String) :
    HttpResourceRequestBuilder C B :=
  { b with request := b.request.path p }

/-- `RequestBuilder::body` for `HttpResourceRequestBuilder` (client.rs
lines 515-521). -/
def HttpResourceRequestBuilder.body {C B T : Type}
    (b : HttpResourceRequestBuilder C B) (x : T) :
    HttpResourceRequestBuilder C T :=
  { conn := b.conn, base_path := b.base_path, request := b.request.body x }

/-- `RequestBuilder::host` for `HttpResourceRequestBuilder` (client.rs line 523). -/
def HttpResourceRequestBuilder.host {C B : Type}
    (b : HttpResourceRequestBuilder C B) (hst : String) :
    HttpResourceRequestBuilder C B :=
  { b with request := b.request.host hst }

/-- `RequestBuilder::content_type` for `HttpResourceRequestBuilder` (client.rs
line 528). -/
def HttpResourceRequestBuilder.content_type {C B : Type}
    (b : HttpResourceRequestBuilder C B) (c : ContentType) :
    HttpResourceRequestBuilder C B :=
  { b with request := b.request.content_type c }

/-- `RequestBuilder::basic_auth` for `HttpResourceRequestBuilder` (client.rs
line 533). -/
def HttpResourceRequestBuilder.basic_auth {C B : Type}
    (b : HttpResourceRequestBuilder C B) (u p : String) :
    HttpResourceRequestBuilder C B :=
  { b with request := b.request.basic_auth u p }

/-- `RequestBuilder::build` for `HttpResourceRequestBuilder` (client.rs line 538). -/
def HttpResourceRequestBuilder.build {C B : Type}
    (b : HttpResourceRequestBuilder C B) : Request B :=
  b.request.build

/-- The underlying byte-stream operations of the three transport variants, at
their interface boundary (spec §6): the raw transport (`C`, error type `E`),
the `BufferedWrite` wrapper over `ConnErrorAdapter` (whose error type is
already `ErrorKind`, since the adapter normalizes errors, client.rs
lines 561-598) and the TLS session (error type `Etls`), together with the
error-classification maps (`embedded_io::Error::kind`).  Reads report a byte
count, writes take the bytes and report a count. -/
structure TransportIO (C E Etls : Type) where
  kind : E → ErrorKind
  tlsKind : Etls → ErrorKind
  rawRead : C → Except E Nat
  rawWrite : C → List Nat → Except E Nat
  rawFlush : C → Except E Unit
  bufRead : C → Nat → Except ErrorKind Nat
  bufWrite : C → Nat → List Nat → Except ErrorKind Nat
  bufFlush : C → Nat → Except ErrorKind Unit
  tlsRead : TlsSession C → Except Etls Nat
  tlsWrite : TlsSession C → List Nat → Except Etls Nat
  tlsFlush : TlsSession C → Except Etls Unit

/-- `Read::read` for `HttpConnection` (client.rs lines 227-237): a single
dispatch on the active form (counted by the second component), forwarding to
that form's transport and normalizing its error with that form's `kind` map. -/
def HttpConnection.read {C E Etls : Type} (io : TransportIO C E Etls) :
    HttpConnection C → Except ErrorKind Nat × Nat
  | .Plain c => ((io.rawRead c).mapError io.kind, 1)
  | .PlainBuffered c b => ((io.bufRead c b).mapError ErrorKind.kind, 1)
  | .Tls s => ((io.tlsRead s).mapError io.tlsKind, 1)

/-- `Write::write` for `HttpConnection` (client.rs lines 244-254). -/
def HttpConnection.write {C E Etls : Type} (io : TransportIO C E Etls)
    (data : List Nat) : HttpConnection C → Except ErrorKind Nat × Nat
  | .Plain c => ((io.rawWrite c data).mapError io.kind, 1)
  | .PlainBuffered c b => ((io.bufWrite c b data).mapError ErrorKind.kind, 1)
  | .Tls s => ((io.tlsWrite s data).mapError io.tlsKind, 1)

/-- `Write::flush` for `HttpConnection` (client.rs lines 256-266). -/
def HttpConnection.flush {C E Etls : Type} (io : TransportIO C E Etls) :
    HttpConnection C → Except ErrorKind Unit × Nat
  | .Plain c => ((io.rawFlush c).mapError io.kind, 1)
  | .PlainBuffered c b => ((io.bufFlush c b).mapError ErrorKind.kind, 1)
  | .Tls s => ((io.tlsFlush s).mapError io.tlsKind, 1)

/-- A concrete environment over a trivial transport, used to evaluate the model
at specific inputs: DNS resolves every host to address 7, TCP always connects
and the TLS handshake always succeeds. -/
def unitEnv : ConnectEnv Unit Nat :=
  { get_host_by_name := fun _ => some 7,
    tcpConnect := fun _ _ => .ok (),
    tlsOpen := fun _ _ _ => true }

/-- A concrete RNG interface model used for evaluation: seeding doubles the
seed value. -/
def seedFromEx : Nat → Nat := fun s => 2 * s

/-- A concrete RNG step used for evaluation: output the state plus one, advance
the state by two. -/
def nextEx : Nat → Nat × Nat := fun r => (r + 1, r + 2)

/-- A concrete TLS configuration with seed 5, buffers 1 and 2, no verification. -/
def cfgEx : TlsConfig := TlsConfig.new 5 1 2 .None

/-- A concrete https URL with default port. -/
def urlHttpsEx : Url :=
  { scheme := .HTTPS, host := "example.com", port := none, path := "/" }

/-- A concrete http URL with default port and path `/api`. -/
def urlHttpEx : Url :=
  { scheme := .HTTP, host := "example.com", port := none, path := "/api" }

/-- A concrete request handle over the trivial transport with a pending request. -/
def handleEx : HttpRequestHandle Unit Unit :=
  { conn := .Plain (), request := some (Request.new .GET "/") }

/-- A concrete send environment in which write and read both succeed. -/
def sendEnvOk : SendEnv := { writeResult := .ok (), readResult := .ok () }

/-- The concrete resource produced by `resource` on `urlHttpEx` over the
trivial transport. -/
def resEx : HttpResource Unit :=
  { conn := .Plain (), host := "example.com", base_path := "/api" }

/-- Helper: `connect` on a client whose TLS configuration slot is empty can only
succeed with a connection in the Plain form, whatever the feature flag, scheme
and injected capabilities do. -/
theorem connect_tls_none_plain {C R : Type} (tlsFeature : Bool)
    (env : ConnectEnv C R) (sf : Nat → R) (nx : R → Nat × R)
    (cl : HttpClient) (url : Url) (hcl : cl.tls = none)
    (conn : HttpConnection C) (cl2 : HttpClient) (tr : List (NetOp R))
    (hok : HttpClient.connect tlsFeature env sf nx cl url = (.ok conn, cl2, tr)) :
    ∃ c, conn = HttpConnection.Plain c := by
  simp only [HttpClient.connect, hcl] at hok
  split at hok
  · simp at hok
  · split at hok
    · simp at hok
    · split at hok
      · split at hok
        · simp at hok
          exact ⟨_, hok.1.symm⟩
        · simp at hok
      · split at hok
        · simp at hok
          exact ⟨_, hok.1.symm⟩
        · simp at hok
          exact ⟨_, hok.1.symm⟩

/-- C1 (amended): with TLS support compiled in but no TLS configuration
supplied to the client, connecting to an https URL does not fail; once DNS and
TCP succeed, `connect` silently returns the raw transport as a Plain
(unencrypted) connection. -/
theorem C1_https_without_config_plain {C R : Type} (env : ConnectEnv C R)
    (sf : Nat → R) (nx : R → Nat × R) (cl : HttpClient) (url : Url)
    (remote : Nat) (conn : C)
    (hdns : env.get_host_by_name url.host = some remote)
    (htcp : env.tcpConnect remote url.port_or_default = .ok conn)
    (htls : cl.tls = none) (hsch : url.scheme = .HTTPS) :
    HttpClient.connect true env sf nx cl url =
      (.ok (.Plain conn), cl,
        [.dnsLookup url.host, .tcpConnect remote url.port_or_default]) := by
  simp [HttpClient.connect, hdns, htcp, htls, hsch]

/-- C2 (amended): with TLS support not compiled in, an https URL fails with the
unsupported-scheme error, but only after DNS resolution and the TCP connect
have both been attempted for that URL: the scheme check follows connection
establishment, as the returned operation trace shows. -/
theorem C2_unsupported_scheme_after_network {C R : Type} (env : ConnectEnv C R)
    (sf : Nat → R) (nx : R → Nat × R) (cl : HttpClient) (url : Url)
    (remote : Nat) (conn : C)
    (hdns : env.get_host_by_name url.host = some remote)
    (htcp : env.tcpConnect remote url.port_or_default = .ok conn)
    (hsch : url.scheme = .HTTPS) :
    HttpClient.connect false env sf nx cl url =
      (.error (.InvalidUrl .UnsupportedScheme), cl,
        [.dnsLookup url.host, .tcpConnect remote url.port_or_default]) := by
  simp [HttpClient.connect, hdns, htcp, hsch]

/-- C3 (amended): an existing connection is upgraded from Plain to
PlainBuffered only by the explicit `into_buffered` conversion and is never
downgraded (PlainBuffered and Tls pass through unchanged); however, when the
client holds a TLS configuration and the scheme is http, `connect` itself
returns a connection that is already in the PlainBuffered form (reusing the
TLS write buffer), without any `into_buffered` call. -/
theorem C3_form_transitions {C R : Type} (env : ConnectEnv C R)
    (sf : Nat → R) (nx : R → Nat × R) (cfg : TlsConfig) (url : Url)
    (remote : Nat) (conn0 : C) (conn : HttpConnection C) (tx : Nat)
    (hdns : env.get_host_by_name url.host = some remote)
    (htcp : env.tcpConnect remote url.port_or_default = .ok conn0)
    (hsch : url.scheme = .HTTP) :
    (conn.form = .Plain → (conn.into_buffered tx).form = .PlainBuffered) ∧
    (conn.form ≠ .Plain → conn.into_buffered tx = conn) ∧
    HttpClient.connect true env sf nx (HttpClient.new_with_tls cfg) url =
      (.ok (.PlainBuffered conn0 cfg.write_buffer), HttpClient.new_with_tls cfg,
        [.dnsLookup url.host, .tcpConnect remote url.port_or_default]) := by
  refine ⟨?_, ?_, ?_⟩
  · intro hp
    cases conn <;> simp_all [HttpConnection.form, HttpConnection.into_buffered]
  · intro hp
    cases conn <;> simp_all [HttpConnection.form, HttpConnection.into_buffered]
  · simp [HttpClient.connect, HttpClient.new_with_tls, hdns, htcp, hsch]

/-- C4: after `send` has consumed a handle's pending request, the slot is
empty, and a second `send` on the same handle returns the `AlreadySent` error,
performs no write to the transport (empty wire trace) and leaves the handle,
its connection included, unchanged. -/
theorem C4_double_send_rejected {C B : Type} (h : HttpRequestHandle C B)
    (env1 env2 : SendEnv) (rb : DefaultRequestBuilder B)
    (hreq : h.request = some rb) :
    (HttpRequestHandle.send env1 h).2.1.request = none ∧
    HttpRequestHandle.send env2 (HttpRequestHandle.send env1 h).2.1 =
      (.error .AlreadySent, (HttpRequestHandle.send env1 h).2.1, []) := by
  have h1 : (HttpRequestHandle.send env1 h).2.1 =
      { conn := h.conn, request := none } := by
    simp only [HttpRequestHandle.send, hreq]
    rcases hw : env1.writeResult with e | u
    · rfl
    · rcases hr : env1.readResult with e | u <;> rfl
  refine ⟨by rw [h1], by rw [h1]; rfl⟩

/-- C5: `into_buffered` maps a Plain connection to a PlainBuffered connection
over the same transport and the supplied buffer, maps PlainBuffered and Tls
connections to themselves unchanged, and is therefore idempotent on the
connection form. -/
theorem C5_into_buffered_idempotent {C : Type} (c : C) (b0 b tx1 tx2 : Nat)
    (s : TlsSession C) (conn : HttpConnection C) :
    HttpConnection.into_buffered (.Plain c) b = .PlainBuffered c b ∧
    HttpConnection.into_buffered (.PlainBuffered c b0) b = .PlainBuffered c b0 ∧
    HttpConnection.into_buffered (.Tls s) b = .Tls s ∧
    ((conn.into_buffered tx1).into_buffered tx2).form =
      (conn.into_buffered tx1).form := by
  refine ⟨rfl, rfl, rfl, ?_⟩
  cases conn <;> rfl

/-- C6: for every connection form and each of the read, write and flush
operations, the operation dispatches on the active form exactly once (the
dispatch counter is 1 in all nine combinations) and maps the underlying
transport error into the shared `ErrorKind` classification with that form's
`kind` map (for the buffered form the error is already an `ErrorKind` and its
`kind` map is the identity), so all three forms share one result type. -/
theorem C6_uniform_dispatch {C E Etls : Type} (io : TransportIO C E Etls)
    (c : C) (b : Nat) (s : TlsSession C) (data : List Nat) :
    HttpConnection.read io (.Plain c) = ((io.rawRead c).mapError io.kind, 1) ∧
    HttpConnection.read io (.PlainBuffered c b) =
      ((io.bufRead c b).mapError ErrorKind.kind, 1) ∧
    HttpConnection.read io (.Tls s) = ((io.tlsRead s).mapError io.tlsKind, 1) ∧
    HttpConnection.write io data (.Plain c) =
      ((io.rawWrite c data).mapError io.kind, 1) ∧
    HttpConnection.write io data (.PlainBuffered c b) =
      ((io.bufWrite c b data).mapError ErrorKind.kind, 1) ∧
    HttpConnection.write io data (.Tls s) =
      ((io.tlsWrite s data).mapError io.tlsKind, 1) ∧
    HttpConnection.flush io (.Plain c) = ((io.rawFlush c).mapError io.kind, 1) ∧
    HttpConnection.flush io (.PlainBuffered c b) =
      ((io.bufFlush c b).mapError ErrorKind.kind, 1) ∧
    HttpConnection.flush io (.Tls s) = ((io.tlsFlush s).mapError io.tlsKind, 1) ∧
    (∀ k : ErrorKind, k.kind = k) :=
  ⟨rfl, rfl, rfl, rfl, rfl, rfl, rfl, rfl, rfl, fun _ => rfl⟩

/-- C7: on a TLS handshake the stored seed is consumed and replaced before the
handshake: the stored seed becomes the first 64-bit output of the generator
seeded from the current seed, and the RNG state handed to the handshake is
that generator advanced past this first output — whether the handshake
succeeds or fails.  Applying this to the returned client shows each successive
TLS connection re-seeds from the previous first output, giving successive
handshakes their distinct pseudo-random streams. -/
theorem C7_seed_consumed {C R : Type} (env : ConnectEnv C R) (sf : Nat → R)
    (nx : R → Nat × R) (cl : HttpClient) (cfg : TlsConfig) (url : Url)
    (remote : Nat) (conn : C)
    (hdns : env.get_host_by_name url.host = some remote)
    (htcp : env.tcpConnect remote url.port_or_default = .ok conn)
    (hcl : cl.tls = some cfg) (hsch : url.scheme = .HTTPS) :
    (HttpClient.connect true env sf nx cl url).2.1 =
      { cl with tls := some { cfg with seed := (nx (sf cfg.seed)).1 } } ∧
    (HttpClient.connect true env sf nx cl url).2.2 =
      [.dnsLookup url.host, .tcpConnect remote url.port_or_default,
       .tlsHandshake url.host (nx (sf cfg.seed)).2] := by
  cases htl : env.tlsOpen url.host cfg.verify (nx (sf cfg.seed)).2 <;>
    simp [HttpClient.connect, hdns, htcp, hcl, hsch, htl]

/-- C8: `resource(url)` stores the parsed URL's path as the scope's base path,
and every request sent through that scope — directly via `HttpResource::send`
or via `HttpResourceRequestBuilder::send` after any chain of builder calls
(which all preserve the scope's base path) — is written with its `base_path`
field set to exactly that stored base path. -/
theorem C8_base_path {C R B T : Type} (tlsFeature : Bool) (env : ConnectEnv C R)
    (sf : Nat → R) (nx : R → Nat × R) (cl cl2 : HttpClient) (url : Url)
    (res : HttpResource C) (tr : List (NetOp R))
    (hres : HttpClient.resource tlsFeature env sf nx cl url = (.ok res, cl2, tr))
    (senv : SendEnv) (req : Request B) (b : HttpResourceRequestBuilder C B)
    (hb : b.base_path = res.base_path) :
    res.base_path = url.path ∧
    (HttpResource.send senv res req).2.head? =
      some (.requestWrite { req with base_path := some res.base_path }) ∧
    (HttpResourceRequestBuilder.send senv b).2.head? =
      some (.requestWrite
        { b.request.build with base_path := some res.base_path }) ∧
    (∀ method path, (HttpResource.request res method path).base_path =
      res.base_path) ∧
    (∀ hs, (b.headers hs).base_path = res.base_path) ∧
    (∀ p, (HttpResourceRequestBuilder.path b p).base_path = res.base_path) ∧
    (∀ x : T, (b.body x).base_path = res.base_path) ∧
    (∀ hst, (HttpResourceRequestBuilder.host b hst).base_path = res.base_path) ∧
    (∀ ct, (b.content_type ct).base_path = res.base_path) ∧
    (∀ u pw, (b.basic_auth u pw).base_path = res.base_path) := by
  have hbp : res.base_path = url.path := by
    unfold HttpClient.resource at hres
    rcases hc : HttpClient.connect tlsFeature env sf nx cl url with ⟨r, cl3, tr3⟩
    rw [hc] at hres
    rcases r with e | c
    · simp at hres
    · simp at hres
      rw [← hres.1]
  refine ⟨hbp, ?_, ?_, fun _ _ => rfl, fun _ => hb, fun _ => hb, fun _ => hb,
    fun _ => hb, fun _ => hb, fun _ _ => hb⟩
  · rcases hw : senv.writeResult with e | u
    · simp [HttpResource.send, hw]
    · rcases hr : senv.readResult with e | u <;> simp [HttpResource.send, hw, hr]
  · rcases hw : senv.writeResult with e | u
    · simp [HttpResourceRequestBuilder.send, hw, hb]
    · rcases hr : senv.readResult with e | u <;>
        simp [HttpResourceRequestBuilder.send, hw, hr, hb]

/-- C9: whenever `connect` on a client built by `HttpClient::new` (no TLS
configuration) succeeds, the returned connection is in the Plain form — never
PlainBuffered and never Tls — for either URL scheme and whether or not TLS
support is compiled in. -/
theorem C9_default_client_plain {C R : Type} (tlsFeature : Bool)
    (env : ConnectEnv C R) (sf : Nat → R) (nx : R → Nat × R) (url : Url)
    (conn : HttpConnection C) (cl2 : HttpClient) (tr : List (NetOp R))
    (hok : HttpClient.connect tlsFeature env sf nx HttpClient.new url =
      (.ok conn, cl2, tr)) :
    conn.form = ConnForm.Plain := by
  obtain ⟨c, rfl⟩ := connect_tls_none_plain tlsFeature env sf nx
    HttpClient.new url rfl conn cl2 tr hok
  rfl

/-- C10: on a request handle whose pending request has been consumed by a
`send` call, every builder method — headers, path, body, host, content_type,
basic_auth and build — panics (an `Option::unwrap` of the consumed slot)
rather than returning an error value. -/
theorem C10_builder_after_send_panics {C B T : Type} (h : HttpRequestHandle C B)
    (env : SendEnv) (rb : DefaultRequestBuilder B)
    (hreq : h.request = some rb)
    (hs : List (String × String)) (p : String) (x : T) (hst : String)
    (ct : ContentType) (u pw : String) :
    ((HttpRequestHandle.send env h).2.1).headers hs = .panicked ∧
    HttpRequestHandle.path ((HttpRequestHandle.send env h).2.1) p = .panicked ∧
    HttpRequestHandle.body ((HttpRequestHandle.send env h).2.1) x =
      (.panicked : PanicOr (HttpRequestHandle C T)) ∧
    ((HttpRequestHandle.send env h).2.1).host hst = .panicked ∧
    ((HttpRequestHandle.send env h).2.1).content_type ct = .panicked ∧
    ((HttpRequestHandle.send env h).2.1).basic_auth u pw = .panicked ∧
    ((HttpRequestHandle.send env h).2.1).build = .panicked := by
  have h1 : (HttpRequestHandle.send env h).2.1 =
      { conn := h.conn, request := none } := by
    simp only [HttpRequestHandle.send, hreq]
    rcases hw : env.writeResult with e | u
    · rfl
    · rcases hr : env.readResult with e | u <;> rfl
  rw [h1]
  exact ⟨rfl, rfl, rfl, rfl, rfl, rfl, rfl⟩

/-- C1 counterexample: a client built by `HttpClient::new` (TLS compiled in,
no configuration) connecting to a concrete https URL succeeds with a usable
Plain connection instead of failing as the claim states. -/
theorem C1_counterexample :
    HttpClient.connect true unitEnv seedFromEx nextEx HttpClient.new urlHttpsEx =
      (.ok (.Plain ()), HttpClient.new,
        [.dnsLookup "example.com", .tcpConnect 7 443]) := rfl

/-- C1 witness: the amended theorem applied at a concrete environment, client
and https URL, with every hypothesis discharged by evaluation. -/
theorem C1_witness :
    unitEnv.get_host_by_name urlHttpsEx.host = some 7 ∧
    unitEnv.tcpConnect 7 urlHttpsEx.port_or_default = .ok () ∧
    HttpClient.new.tls = none ∧
    urlHttpsEx.scheme = .HTTPS ∧
    HttpClient.connect true unitEnv seedFromEx nextEx HttpClient.new urlHttpsEx =
      (.ok (.Plain ()), HttpClient.new,
        [.dnsLookup urlHttpsEx.host, .tcpConnect 7 urlHttpsEx.port_or_default]) :=
  ⟨rfl, rfl, rfl, rfl,
    C1_https_without_config_plain unitEnv seedFromEx nextEx HttpClient.new
      urlHttpsEx 7 () rfl rfl rfl rfl⟩

/-- C2 counterexample: at a concrete https URL with TLS support not compiled
in, `connect` returns the unsupported-scheme error with a non-empty network
trace containing the DNS lookup and the TCP connect, refuting the claim that
the failure precedes any network operation. -/
theorem C2_counterexample :
    HttpClient.connect false unitEnv seedFromEx nextEx HttpClient.new urlHttpsEx =
      (.error (.InvalidUrl .UnsupportedScheme), HttpClient.new,
        [.dnsLookup "example.com", .tcpConnect 7 443]) ∧
    (HttpClient.connect false unitEnv seedFromEx nextEx HttpClient.new
      urlHttpsEx).2.2 ≠ [] :=
  ⟨rfl, by decide⟩

/-- C2 witness: the amended theorem applied at a concrete environment and
https URL, with every hypothesis discharged by evaluation. -/
theorem C2_witness :
    unitEnv.get_host_by_name urlHttpsEx.host = some 7 ∧
    unitEnv.tcpConnect 7 urlHttpsEx.port_or_default = .ok () ∧
    urlHttpsEx.scheme = .HTTPS ∧
    HttpClient.connect false unitEnv seedFromEx nextEx HttpClient.new urlHttpsEx =
      (.error (.InvalidUrl .UnsupportedScheme), HttpClient.new,
        [.dnsLookup urlHttpsEx.host, .tcpConnect 7 urlHttpsEx.port_or_default]) :=
  ⟨rfl, rfl, rfl,
    C2_unsupported_scheme_after_network unitEnv seedFromEx nextEx HttpClient.new
      urlHttpsEx 7 () rfl rfl rfl⟩

/-- C3 counterexample: at a concrete http URL, a client holding a TLS
configuration establishes a connection that is already in the PlainBuffered
form, with no `into_buffered` conversion involved, refuting the claim that the
buffered form never arises automatically at establishment. -/
theorem C3_counterexample :
    HttpClient.connect true unitEnv seedFromEx nextEx
      (HttpClient.new_with_tls cfgEx) urlHttpEx =
      (.ok (.PlainBuffered () 2), HttpClient.new_with_tls cfgEx,
        [.dnsLookup "example.com", .tcpConnect 7 80]) ∧
    (HttpConnection.PlainBuffered () 2 : HttpConnection Unit).form =
      ConnForm.PlainBuffered :=
  ⟨rfl, rfl⟩

/-- C3 witness: the amended theorem applied at a concrete environment,
configuration, http URL and Plain connection, with every hypothesis discharged
by evaluation. -/
theorem C3_witness :
    unitEnv.get_host_by_name urlHttpEx.host = some 7 ∧
    unitEnv.tcpConnect 7 urlHttpEx.port_or_default = .ok () ∧
    urlHttpEx.scheme = .HTTP ∧
    (((HttpConnection.Plain () : HttpConnection Unit).form = .Plain →
        ((HttpConnection.Plain () : HttpConnection Unit).into_buffered 9).form =
          .PlainBuffered) ∧
      ((HttpConnection.Plain () : HttpConnection Unit).form ≠ .Plain →
        (HttpConnection.Plain () : HttpConnection Unit).into_buffered 9 =
          .Plain ()) ∧
      HttpClient.connect true unitEnv seedFromEx nextEx
        (HttpClient.new_with_tls cfgEx) urlHttpEx =
        (.ok (.PlainBuffered () cfgEx.write_buffer), HttpClient.new_with_tls cfgEx,
          [.dnsLookup urlHttpEx.host, .tcpConnect 7 urlHttpEx.port_or_default])) :=
  ⟨rfl, rfl, rfl,
    C3_form_transitions unitEnv seedFromEx nextEx cfgEx urlHttpEx 7 ()
      (.Plain ()) 9 rfl rfl rfl⟩

/-- C4 witness: the theorem applied to a concrete handle with a pending GET
request and a succeeding send environment. -/
theorem C4_witness :
    handleEx.request = some (Request.new .GET "/") ∧
    ((HttpRequestHandle.send sendEnvOk handleEx).2.1.request = none ∧
      HttpRequestHandle.send sendEnvOk
        (HttpRequestHandle.send sendEnvOk handleEx).2.1 =
        (.error .AlreadySent, (HttpRequestHandle.send sendEnvOk handleEx).2.1,
          [])) :=
  ⟨rfl, C4_double_send_rejected handleEx sendEnvOk sendEnvOk
    (Request.new .GET "/") rfl⟩

/-- C7 witness: the theorem applied at a concrete client with seed 5 and the
concrete RNG model, where the generator state is 10, its first output 11
becomes the stored seed and the advanced state 12 is handed to the
handshake. -/
theorem C7_witness :
    unitEnv.get_host_by_name urlHttpsEx.host = some 7 ∧
    unitEnv.tcpConnect 7 urlHttpsEx.port_or_default = .ok () ∧
    (HttpClient.new_with_tls cfgEx).tls = some cfgEx ∧
    urlHttpsEx.scheme = .HTTPS ∧
    ((HttpClient.connect true unitEnv seedFromEx nextEx
        (HttpClient.new_with_tls cfgEx) urlHttpsEx).2.1 =
        { HttpClient.new_with_tls cfgEx with
            tls := some { cfgEx with seed := 11 } } ∧
      (HttpClient.connect true unitEnv seedFromEx nextEx
        (HttpClient.new_with_tls cfgEx) urlHttpsEx).2.2 =
        [.dnsLookup urlHttpsEx.host, .tcpConnect 7 urlHttpsEx.port_or_default,
         .tlsHandshake urlHttpsEx.host 12]) :=
  ⟨rfl, rfl, rfl, rfl,
    C7_seed_consumed unitEnv seedFromEx nextEx (HttpClient.new_with_tls cfgEx)
      cfgEx urlHttpsEx 7 () rfl rfl rfl rfl⟩

/-- C8 witness: the theorem applied to the concrete resource obtained from
`resource` on `http://example.com/api`, a concrete request and the scoped GET
builder for path `/users`. -/
theorem C8_witness :
    HttpClient.resource false unitEnv seedFromEx nextEx HttpClient.new urlHttpEx =
      (.ok resEx, HttpClient.new,
        [.dnsLookup "example.com", .tcpConnect 7 80]) ∧
    (HttpResource.request resEx .GET "/users").base_path = resEx.base_path ∧
    (resEx.base_path = urlHttpEx.path ∧
      (HttpResource.send sendEnvOk resEx (Request.new .GET "/x")).2.head? =
        some (.requestWrite
          { method := .GET, path := "/x", base_path := some "/api" }) ∧
      (HttpResourceRequestBuilder.send sendEnvOk
        (HttpResource.request resEx .GET "/users")).2.head? =
        some (.requestWrite
          { method := .GET, path := "/users", base_path := some "/api",
            host := some "example.com" }) ∧
      (∀ method path, (HttpResource.request resEx method path).base_path =
        resEx.base_path) ∧
      (∀ hs, ((HttpResource.request resEx .GET "/users").headers hs).base_path =
        resEx.base_path) ∧
      (∀ p, (HttpResourceRequestBuilder.path
        (HttpResource.request resEx .GET "/users") p).base_path =
        resEx.base_path) ∧
      (∀ x : Unit, ((HttpResource.request resEx .GET "/users").body x).base_path =
        resEx.base_path) ∧
      (∀ hst, (HttpResourceRequestBuilder.host
        (HttpResource.request resEx .GET "/users") hst).base_path =
        resEx.base_path) ∧
      (∀ ct, ((HttpResource.request resEx .GET "/users").content_type
        ct).base_path = resEx.base_path) ∧
      (∀ u pw, ((HttpResource.request resEx .GET "/users").basic_auth
        u pw).base_path = resEx.base_path)) :=
  ⟨rfl, rfl,
    C8_base_path false unitEnv seedFromEx nextEx HttpClient.new HttpClient.new
      urlHttpEx resEx [.dnsLookup "example.com", .tcpConnect 7 80] rfl sendEnvOk
      (Request.new .GET "/x") (HttpResource.request resEx .GET "/users") rfl⟩

/-- C9 witness: the theorem applied at a concrete successful `connect` of a
TLS-less client over http. -/
theorem C9_witness :
    HttpClient.connect false unitEnv seedFromEx nextEx HttpClient.new urlHttpEx =
      (.ok (.Plain ()), HttpClient.new,
        [.dnsLookup "example.com", .tcpConnect 7 80]) ∧
    (HttpConnection.Plain () : HttpConnection Unit).form = ConnForm.Plain :=
  ⟨rfl,
    C9_default_client_plain false unitEnv seedFromEx nextEx urlHttpEx
      (.Plain ()) HttpClient.new [.dnsLookup "example.com", .tcpConnect 7 80]
      rfl⟩

/-- C10 witness: the theorem applied to a concrete handle after one successful
send, evaluating all seven builder operations to the panic marker. -/
theorem C10_witness :
    handleEx.request = some (Request.new .GET "/") ∧
    (((HttpRequestHandle.send sendEnvOk handleEx).2.1).headers [] = .panicked ∧
      HttpRequestHandle.path ((HttpRequestHandle.send sendEnvOk handleEx).2.1)
        "/p" = .panicked ∧
      HttpRequestHandle.body ((HttpRequestHandle.send sendEnvOk handleEx).2.1)
        () = (.panicked : PanicOr (HttpRequestHandle Unit Unit)) ∧
      ((HttpRequestHandle.send sendEnvOk handleEx).2.1).host "h" = .panicked ∧
      ((HttpRequestHandle.send sendEnvOk handleEx).2.1).content_type
        .TextPlain = .panicked ∧
      ((HttpRequestHandle.send sendEnvOk handleEx).2.1).basic_auth "u" "w" =
        .panicked ∧
      ((HttpRequestHandle.send sendEnvOk handleEx).2.1).build = .panicked) :=
  ⟨rfl, C10_builder_after_send_panics handleEx sendEnvOk (Request.new .GET "/")
    rfl [] "/p" () "h" .TextPlain "u" "w"⟩

end Reqwless
